import Mathlib

/-!
Shallow embedding of `indra/belief/sklearn/wrapper.py`: the statement
feature-matrix construction engine (`SklearnBase.to_matrix`,
`CountsModel.stmts_to_matrix`, `CountsModel.df_to_matrix`,
`EvidenceModel.stmts_to_matrix`) together with the evidence alignment
helpers it imports from `indra.belief`.

Feature matrices hold only small non-negative integers (evidence counts,
one-hot bits, member counts), so rows are embedded as `List Nat`; a
matrix is the list of its rows.  Fallible methods return
`Except PyError`, whose constructors record which Python exception the
source raises (`ValueError`, `TypeError`, or a dict `KeyError`).
-/

namespace IndraSklearn

/-- One observation supporting a statement (an `indra.statements.Evidence`
object): the fields the wrapper reads are the extraction-pipeline name
`source_api`, the citation identifier `pmid`, and the free `text`. -/
structure Evidence where
  source_api : String
  pmid : String
  text : String
deriving DecidableEq

/-- An INDRA statement as the wrapper sees it: its concrete class name
(`type(stmt).__name__`), its agent list (`stmt.agent_list()`), and its
attached evidence list (`stmt.evidence`). -/
structure Stmt where
  stmt_type : String
  agents : List String
  evidence : List Evidence
deriving DecidableEq

/-- The Python exceptions the wrapper can raise.  The spec's
ValidationError and ConfigurationError are both `ValueError` in the
source; a failed `stmt_type_map[...]` lookup is a `KeyError`. -/
inductive PyError where
  | valueError (msg : String)
  | typeError (msg : String)
  | keyError (key : String)
deriving DecidableEq

/-- The configuration stored by `CountsModel.__init__`: the ordered source
vocabulary `source_list`, the three feature flags, and the type vocabulary
`stmt_type_map` (statement class names listed in index order; the source
builds it from `get_all_descendants(Statement)`, which lives outside the
files at hand, so the enumeration is a parameter here). -/
structure CountsModelCfg where
  source_list : List String
  use_stmt_type : Bool
  use_num_members : Bool
  use_num_pmids : Bool
  stmt_type_map : List String
deriving DecidableEq

/-- Modelled from the spec: `check_extra_evidence` is imported from
`indra.belief`, which is not among the sources here.  Per §4.1, a supplied
evidence override set must have one entry per statement, otherwise the
call fails with the ValidationError ("length mismatch between statements
and evidence overrides"); an absent override set always passes. -/
def check_extra_evidence (extra_evidence : Option (List (List Evidence)))
    (num_stmts : Nat) : Except PyError Unit :=
  match extra_evidence with
  | none => .ok ()
  | some ee =>
    if ee.length = num_stmts then .ok ()
    else .error (.valueError
      "length mismatch between statements and evidence overrides")

/-- Modelled from the spec: `get_stmt_evidence` is imported from
`indra.belief`, which is not among the sources here.  Per §4.1, it
resolves the evidence for statement index `ix`: the override entry at
`ix` when an override set is supplied (replacing the statement's own
evidence wholesale), and the statement's own evidence otherwise. -/
def get_stmt_evidence (stmt : Stmt) (ix : Nat)
    (extra_evidence : Option (List (List Evidence))) : List Evidence :=
  match extra_evidence with
  | none => stmt.evidence
  | some ee => ee.getD ix []

/-- The one-hot list comprehension shared by all builders:
`[1 if ix == stmt_type_ix else 0 for ix in range(len(stmt_type_map))]`. -/
def typeOneHot (stmt_type_map : List String) (stmt_type_ix : Nat) : List Nat :=
  (List.range stmt_type_map.length).map (fun ix => if ix = stmt_type_ix then 1 else 0)

/-- The `use_stmt_type` branch shared by `stmts_to_matrix` and
`df_to_matrix`: look the type name up in `stmt_type_map` (a missing key
raises `KeyError`) and emit the one-hot block; when the flag is off the
branch contributes nothing. -/
def typeFeature (cfg : CountsModelCfg) (t : String) : Except PyError (List Nat) :=
  if cfg.use_stmt_type then
    if t ∈ cfg.stmt_type_map then
      .ok (typeOneHot cfg.stmt_type_map (cfg.stmt_type_map.indexOf t))
    else .error (.keyError t)
  else .ok []

/-- One pass of the first loop of `CountsModel.stmts_to_matrix`: the
categorical feature row of one statement, in the source's order — type
one-hot block, then member count, then distinct-PMID count.  The PMID set
is built from the resolved evidence of this pass. -/
def catFeatureRow (cfg : CountsModelCfg) (stmt : Stmt)
    (stmt_ev : List Evidence) : Except PyError (List Nat) :=
  match typeFeature cfg stmt.stmt_type with
  | .error e => .error e
  | .ok tp =>
    .ok (tp
      ++ (if cfg.use_num_members then [stmt.agents.length] else [])
      ++ (if cfg.use_num_pmids then [((stmt_ev.map Evidence.pmid).dedup).length] else []))

/-- The first loop of `CountsModel.stmts_to_matrix` over
`enumerate(stmts)`: each statement's evidence is resolved with that
statement's own index `ix`, and only non-empty feature rows are kept
(`if feature_row: cat_features.append(feature_row)`). -/
def catFeaturesAux (cfg : CountsModelCfg)
    (extra_evidence : Option (List (List Evidence))) :
    List Stmt → Nat → Except PyError (List (List Nat))
  | [], _ => .ok []
  | stmt :: rest, ix =>
    match catFeatureRow cfg stmt (get_stmt_evidence stmt ix extra_evidence) with
    | .error e => .error e
    | .ok feature_row =>
      match catFeaturesAux cfg extra_evidence rest (ix + 1) with
      | .error e => .error e
      | .ok rows => .ok (if feature_row = [] then rows else feature_row :: rows)

/-- One row of the source-count pass: `Counter(sources).get(src, 0)` for
each vocabulary entry, in `source_list` order.  A source absent from the
vocabulary reaches no column; a vocabulary entry absent from the evidence
counts 0. -/
def sourceCountRow (source_list : List String) (stmt_ev : List Evidence) : List Nat :=
  source_list.map (fun src => (stmt_ev.map Evidence.source_api).count src)

/-- The second loop of `CountsModel.stmts_to_matrix`.  The source calls
`get_stmt_evidence(stmt, ix, extra_evidence)` inside this loop, but `ix`
is the variable leaked from the FIRST loop, whose final value is
`len(stmts) - 1`; the loop's own index `stmt_ix` is only used to address
the output row.  The model reproduces that stale index. -/
def sourceCountRows (cfg : CountsModelCfg) (stmts : List Stmt)
    (extra_evidence : Option (List (List Evidence))) : List (List Nat) :=
  stmts.map (fun stmt =>
    sourceCountRow cfg.source_list
      (get_stmt_evidence stmt (stmts.length - 1) extra_evidence))

/-- Model of `CountsModel.stmts_to_matrix`: validate the override set,
collect categorical feature rows (first loop), build the source-count
block (second loop), and `hstack` the two when any categorical features
were produced. -/
def stmts_to_matrix (cfg : CountsModelCfg) (stmts : List Stmt)
    (extra_evidence : Option (List (List Evidence))) :
    Except PyError (List (List Nat)) :=
  match check_extra_evidence extra_evidence stmts.length with
  | .error e => .error e
  | .ok _ =>
    match catFeaturesAux cfg extra_evidence stmts 0 with
    | .error e => .error e
    | .ok cat_features =>
      let x_arr := sourceCountRows cfg stmts extra_evidence
      .ok (if cat_features = [] then x_arr
           else x_arr.zipWith (fun a b => a ++ b) cat_features)

/-- One row of a statement DataFrame as seen through `df.itertuples()`:
its `stmt_type` cell, its `source_counts` mapping cell (meaningful when
that column exists), and the remaining named numeric cells
(`rowtup._asdict()`). -/
structure DFRow where
  stmt_type : String
  source_counts : List (String × Nat)
  cells : List (String × Nat)
deriving DecidableEq

/-- A pandas DataFrame: its column labels and its rows. -/
structure DataFrame where
  columns : List String
  rows : List DFRow
deriving DecidableEq

/-- The identifying columns `CountsModel.df_to_matrix` requires. -/
def required_cols : List String :=
  ["agA_id", "agA_name", "agA_ns", "agB_id", "agB_name", "agB_ns",
   "stmt_hash", "stmt_type"]

/-- The per-source column check of `df_to_matrix`, reached only when the
`source_counts` column is absent: every vocabulary entry must be a column
of the DataFrame, else a `ValueError` names the first missing one. -/
def checkSourceCols : List String → List String → Except PyError Unit
  | [], _ => .ok ()
  | source :: rest, cols =>
    if cols.contains source then checkSourceCols rest cols
    else .error (.valueError
      ("Expected column \"" ++ source ++ "\" not in the given statement DataFrame"))

/-- The categorical-feature loop of `df_to_matrix` over `df.itertuples()`:
only the type one-hot branch exists on this path, and only non-empty
feature rows are kept. -/
def dfCatFeatures (cfg : CountsModelCfg) :
    List DFRow → Except PyError (List (List Nat))
  | [] => .ok []
  | row :: rest =>
    match typeFeature cfg row.stmt_type with
    | .error e => .error e
    | .ok feature_row =>
      match dfCatFeatures cfg rest with
      | .error e => .error e
      | .ok rows => .ok (if feature_row = [] then rows else feature_row :: rows)

/-- One row of the source-count pass of `df_to_matrix`: read each
vocabulary entry either from the row's `source_counts` mapping
(`rowtup.source_counts.get(src, 0)`) or from the column of that name
(`rowtup._asdict()[src]`, whose missing key would raise `KeyError`). -/
def dfSourceCountRow (source_list : List String) (has_sc_col : Bool)
    (row : DFRow) : Except PyError (List Nat) :=
  if has_sc_col then
    .ok (source_list.map (fun src => ((row.source_counts).lookup src).getD 0))
  else
    source_list.mapM (fun src =>
      match (row.cells).lookup src with
      | some v => Except.ok v
      | none => Except.error (.keyError src))

/-- The source-count loop of `df_to_matrix` over `df.itertuples()`. -/
def dfSourceCountRows (source_list : List String) (has_sc_col : Bool) :
    List DFRow → Except PyError (List (List Nat))
  | [] => .ok []
  | row :: rest =>
    match dfSourceCountRow source_list has_sc_col row with
    | .error e => .error e
    | .ok r =>
      match dfSourceCountRows source_list has_sc_col rest with
      | .error e => .error e
      | .ok rs => .ok (r :: rs)

/-- Model of `CountsModel.df_to_matrix`: reject the member-count and
PMID-count flags, require the identifying columns, locate the source
counts (mapping column or per-source columns), then run the categorical
and source-count loops and `hstack` the results. -/
def df_to_matrix (cfg : CountsModelCfg) (df : DataFrame) :
    Except PyError (List (List Nat)) :=
  if cfg.use_num_members then
    .error (.valueError "use_num_members not supported for statement DataFrames.")
  else if cfg.use_num_pmids then
    .error (.valueError "use_num_pmids not supported for statement DataFrames.")
  else if ¬ (required_cols.all (fun c => df.columns.contains c)) then
    .error (.valueError "Statement DataFrame is missing required columns.")
  else
    let has_sc_col := df.columns.contains "source_counts"
    match (if has_sc_col then Except.ok ()
           else checkSourceCols cfg.source_list df.columns) with
    | .error e => .error e
    | .ok _ =>
      match dfCatFeatures cfg df.rows with
      | .error e => .error e
      | .ok cat_features =>
        match dfSourceCountRows cfg.source_list has_sc_col df.rows with
        | .error e => .error e
        | .ok x_arr =>
          .ok (if cat_features = [] then x_arr
               else x_arr.zipWith (fun a b => a ++ b) cat_features)

/-- The three input shapes `SklearnBase.to_matrix` dispatches over —
numpy array, DataFrame, statement list — plus a catch-all for any other
Python value. -/
inductive StmtData where
  | arr (x : List (List Nat))
  | frame (df : DataFrame)
  | stmts (l : List Stmt)
  | other (descr : String)
deriving DecidableEq

/-- Model of `SklearnBase.to_matrix` as inherited by `CountsModel`: an
array is returned untouched; a DataFrame is rejected when overrides are
supplied and otherwise routed to `df_to_matrix`; a statement list is
routed to `stmts_to_matrix`; anything else raises `TypeError`. -/
def to_matrix (cfg : CountsModelCfg) (stmt_data : StmtData)
    (extra_evidence : Option (List (List Evidence))) :
    Except PyError (List (List Nat)) :=
  match stmt_data with
  | .arr x => .ok x
  | .frame df =>
    match extra_evidence with
    | some _ => .error (.valueError
        "extra_evidence cannot be used with a statement DataFrame.")
    | none => df_to_matrix cfg df
  | .stmts l => stmts_to_matrix cfg l extra_evidence
  | .other _ => .error (.typeError
      "stmt_data must be a numpy array, DataFrame, or list of Statements")

/-- One pass of the loop of `EvidenceModel.stmts_to_matrix`: a statement
must carry exactly one evidence, then its type one-hot row is emitted;
the sentence length `len(ev.text)` is appended to a local list the method
never returns. -/
def evidenceFeatureRow (stmt_type_map : List String) (stmt : Stmt) :
    Except PyError (List Nat) :=
  if stmt.evidence.length ≠ 1 then
    .error (.valueError
      "EvidenceModel requires a list of statements with only a single evidence as input")
  else if stmt.stmt_type ∈ stmt_type_map then
    .ok (typeOneHot stmt_type_map (stmt_type_map.indexOf stmt.stmt_type))
  else .error (.keyError stmt.stmt_type)

/-- Model of `EvidenceModel.stmts_to_matrix`: one row per statement,
consisting of the one-hot type block only (the collected sentence lengths
are discarded when `cat_arr` alone is returned). -/
def evidence_stmts_to_matrix (stmt_type_map : List String) :
    List Stmt → Except PyError (List (List Nat))
  | [] => .ok []
  | stmt :: rest =>
    match evidenceFeatureRow stmt_type_map stmt with
    | .error e => .error e
    | .ok row =>
      match evidence_stmts_to_matrix stmt_type_map rest with
      | .error e => .error e
      | .ok rows => .ok (row :: rows)

/-! Concrete sample data, used to instantiate theorems with hypotheses. -/

/-- A reach-extracted evidence. -/
def evReach : Evidence := ⟨"reach", "11111", "t1"⟩

/-- A second reach-extracted evidence with a distinct PMID. -/
def evReach2 : Evidence := ⟨"reach", "11112", "t2"⟩

/-- A medscan-extracted evidence (out of the sample vocabularies). -/
def evMedscan : Evidence := ⟨"medscan", "11113", "t3"⟩

/-- A sparser-extracted evidence. -/
def evSparser : Evidence := ⟨"sparser", "22222", "t4"⟩

/-- A Phosphorylation statement with evidence sources reach, reach, medscan. -/
def stmtPhos : Stmt := ⟨"Phosphorylation", ["MAP2K1", "MAPK1"], [evReach, evReach2, evMedscan]⟩

/-- An Activation statement with a single sparser evidence. -/
def stmtAct : Stmt := ⟨"Activation", ["RAF1", "MAP2K1"], [evSparser]⟩

/-- A sample type vocabulary, in index order. -/
def sampleTypeMap : List String := ["Phosphorylation", "Activation"]

/-- C1 at the failing input: the statement-driven builder with statements
`[stmtPhos, stmtAct]` and override set `[[evReach], []]`.  The claim says
row 0's source counts are tallied from override entry 0 (which would give
`[1]`, as the second conjunct computes); the code resolves every row's
evidence with the stale index 1 left over from its first loop, so both
rows are tallied from override entry 1 (`[]`) and the matrix is
`[[0], [0]]`. -/
theorem stmts_to_matrix_stale_index :
    stmts_to_matrix ⟨["reach"], false, false, false, []⟩ [stmtPhos, stmtAct]
        (some [[evReach], []]) = .ok [[0], [0]] ∧
    sourceCountRow ["reach"] [evReach] = [1] := by
  constructor <;> rfl

/-- C2: a supplied evidence override set whose length differs from the
statement count makes the statement-driven builder fail with the
ValidationError, before any matrix is produced. -/
theorem stmts_to_matrix_length_mismatch (cfg : CountsModelCfg)
    (stmts : List Stmt) (ee : List (List Evidence))
    (h : ee.length ≠ stmts.length) :
    stmts_to_matrix cfg stmts (some ee) =
      .error (.valueError
        "length mismatch between statements and evidence overrides") := by
  simp [stmts_to_matrix, check_extra_evidence, h]

/-- Witness for C2: three statements against two override entries. -/
theorem stmts_to_matrix_length_mismatch_witness :
    ([[evReach], [evSparser]] : List (List Evidence)).length ≠
        ([stmtPhos, stmtAct, stmtPhos] : List Stmt).length ∧
    stmts_to_matrix ⟨["reach"], false, false, false, []⟩
        [stmtPhos, stmtAct, stmtPhos] (some [[evReach], [evSparser]]) =
      .error (.valueError
        "length mismatch between statements and evidence overrides") :=
  ⟨by decide, stmts_to_matrix_length_mismatch _ _ _ (by decide)⟩

/-- C4: the dispatch layer returns a numeric-array input unchanged, for
every configuration and every override argument — no validation and no
transformation happen on that path. -/
theorem to_matrix_arr_id (cfg : CountsModelCfg) (x : List (List Nat))
    (extra_evidence : Option (List (List Evidence))) :
    to_matrix cfg (.arr x) extra_evidence = .ok x := rfl

/-- C8: enabling the member-count or the PMID-count assembler makes the
table-driven builder fail with the corresponding ValueError on every
DataFrame, whatever its contents. -/
theorem df_to_matrix_unsupported_flags (cfg : CountsModelCfg) (df : DataFrame)
    (h : cfg.use_num_members = true ∨ cfg.use_num_pmids = true) :
    df_to_matrix cfg df = .error (.valueError
      (if cfg.use_num_members then
        "use_num_members not supported for statement DataFrames."
       else "use_num_pmids not supported for statement DataFrames.")) := by
  rcases h with h | h
  · simp [df_to_matrix, h]
  · cases hm : cfg.use_num_members <;> simp [df_to_matrix, h, hm]

/-- Witness for C8: PMID counting requested against an empty DataFrame. -/
theorem df_to_matrix_unsupported_flags_witness :
    ((⟨[], false, false, true, []⟩ : CountsModelCfg).use_num_members = true ∨
     (⟨[], false, false, true, []⟩ : CountsModelCfg).use_num_pmids = true) ∧
    df_to_matrix ⟨[], false, false, true, []⟩ ⟨[], []⟩ =
      .error (.valueError "use_num_pmids not supported for statement DataFrames.") :=
  ⟨by decide, df_to_matrix_unsupported_flags _ _ (by decide)⟩

/-- C9: supplying an evidence override set together with a DataFrame makes
the dispatch layer fail with the ValidationError for every DataFrame and
every override set, so the table-driven builder is never reached. -/
theorem to_matrix_df_rejects_extra_evidence (cfg : CountsModelCfg)
    (df : DataFrame) (ee : List (List Evidence)) :
    to_matrix cfg (.frame df) (some ee) =
      .error (.valueError
        "extra_evidence cannot be used with a statement DataFrame.") := rfl

/-- With all three feature flags off, the categorical loop of
`stmts_to_matrix` keeps no rows, for any override set and start index. -/
theorem catFeaturesAux_no_flags (sl tm : List String)
    (extra : Option (List (List Evidence))) :
    ∀ (stmts : List Stmt) (ix : Nat),
      catFeaturesAux ⟨sl, false, false, false, tm⟩ extra stmts ix = .ok []
  | [], _ => rfl
  | stmt :: rest, ix => by
    simp [catFeaturesAux, catFeatureRow, typeFeature,
      catFeaturesAux_no_flags sl tm extra rest (ix + 1)]

/-- C5: with only source-count features enabled, the statement-driven
builder succeeds on every statement list and produces, for each
statement, one count per vocabulary entry in vocabulary order — the
number of that statement's evidences carrying that `source_api`.
Vocabulary entries unseen in the evidence count 0, and evidence from
sources outside the vocabulary aborts nothing and reaches no column. -/
theorem stmts_to_matrix_source_counts (source_list stmt_type_map : List String)
    (stmts : List Stmt) :
    stmts_to_matrix ⟨source_list, false, false, false, stmt_type_map⟩ stmts none =
      .ok (stmts.map (fun stmt => source_list.map
        (fun src => (stmt.evidence.map Evidence.source_api).count src))) := by
  simp [stmts_to_matrix, check_extra_evidence, catFeaturesAux_no_flags,
    sourceCountRows, sourceCountRow, get_stmt_evidence]

/-- The one-hot block always has the width of the type vocabulary. -/
theorem typeOneHot_length (tm : List String) (k : Nat) :
    (typeOneHot tm k).length = tm.length := by
  simp [typeOneHot]

/-- Inside the vocabulary's width, the one-hot block holds 1 at its hot
index. -/
theorem typeOneHot_getD_self (tm : List String) (k : Nat) (hk : k < tm.length) :
    (typeOneHot tm k).getD k 0 = 1 := by
  simp [typeOneHot, List.getD_eq_getElem?_getD, List.getElem?_map,
    List.getElem?_range, hk]

/-- Away from its hot index, the one-hot block holds 0. -/
theorem typeOneHot_getD_of_ne (tm : List String) (k j : Nat) (h : j ≠ k) :
    (typeOneHot tm k).getD j 0 = 0 := by
  rcases Nat.lt_or_ge j tm.length with hj | hj
  · simp [typeOneHot, List.getD_eq_getElem?_getD, List.getElem?_map,
      List.getElem?_range, hj, h]
  · have hlen : (typeOneHot tm k).length ≤ j := by
      simpa [typeOneHot_length] using hj
    simp [List.getD_eq_getElem?_getD, List.getElem?_eq_none hlen]

/-- C6: with `use_stmt_type` on and the statement's kind present in the
type vocabulary, the matrix row is the source-count block followed by the
one-hot block, and that one-hot block has the vocabulary's width, a 1 at
the index the vocabulary maps the kind to, and 0 at every other index. -/
theorem stmts_to_matrix_type_one_hot (source_list stmt_type_map : List String)
    (stmt : Stmt) (h : stmt.stmt_type ∈ stmt_type_map) :
    stmts_to_matrix ⟨source_list, true, false, false, stmt_type_map⟩ [stmt] none =
      .ok [sourceCountRow source_list stmt.evidence
            ++ typeOneHot stmt_type_map (stmt_type_map.indexOf stmt.stmt_type)] ∧
    (typeOneHot stmt_type_map (stmt_type_map.indexOf stmt.stmt_type)).length
        = stmt_type_map.length ∧
    (typeOneHot stmt_type_map (stmt_type_map.indexOf stmt.stmt_type)).getD
        (stmt_type_map.indexOf stmt.stmt_type) 0 = 1 ∧
    ∀ j, j ≠ stmt_type_map.indexOf stmt.stmt_type →
      (typeOneHot stmt_type_map (stmt_type_map.indexOf stmt.stmt_type)).getD j 0 = 0 := by
  have hk : stmt_type_map.indexOf stmt.stmt_type < stmt_type_map.length :=
    List.indexOf_lt_length.2 h
  have hne : typeOneHot stmt_type_map (stmt_type_map.indexOf stmt.stmt_type) ≠ [] := by
    intro hc
    have := typeOneHot_length stmt_type_map (stmt_type_map.indexOf stmt.stmt_type)
    rw [hc] at this
    simp at this
    omega
  refine ⟨?_, typeOneHot_length _ _, typeOneHot_getD_self _ _ hk,
    fun j hj => typeOneHot_getD_of_ne _ _ _ hj⟩
  simp [stmts_to_matrix, check_extra_evidence, catFeaturesAux, catFeatureRow,
    typeFeature, h, hne, sourceCountRows, get_stmt_evidence]

/-- Witness for C6: a Phosphorylation statement under the sample type
vocabulary yields the one-hot block `[1, 0]` after its source counts. -/
theorem stmts_to_matrix_type_one_hot_witness :
    stmtPhos.stmt_type ∈ sampleTypeMap ∧
    (stmts_to_matrix ⟨["reach", "sparser"], true, false, false, sampleTypeMap⟩
        [stmtPhos] none =
      .ok [sourceCountRow ["reach", "sparser"] stmtPhos.evidence
            ++ typeOneHot sampleTypeMap (sampleTypeMap.indexOf stmtPhos.stmt_type)] ∧
    (typeOneHot sampleTypeMap (sampleTypeMap.indexOf stmtPhos.stmt_type)).length
        = sampleTypeMap.length ∧
    (typeOneHot sampleTypeMap (sampleTypeMap.indexOf stmtPhos.stmt_type)).getD
        (sampleTypeMap.indexOf stmtPhos.stmt_type) 0 = 1 ∧
    ∀ j, j ≠ sampleTypeMap.indexOf stmtPhos.stmt_type →
      (typeOneHot sampleTypeMap (sampleTypeMap.indexOf stmtPhos.stmt_type)).getD j 0 = 0) :=
  ⟨by decide, stmts_to_matrix_type_one_hot _ _ _ (by decide)⟩

/-- With `use_stmt_type` on, the categorical loop fails with a `KeyError`
on some vocabulary-missing kind as soon as its list contains a statement
whose kind is missing from the type vocabulary. -/
theorem catFeaturesAux_unknown_type (cfg : CountsModelCfg)
    (htype : cfg.use_stmt_type = true) :
    ∀ (stmts : List Stmt) (ix : Nat),
      (∃ s ∈ stmts, s.stmt_type ∉ cfg.stmt_type_map) →
      ∃ t, t ∉ cfg.stmt_type_map ∧
        catFeaturesAux cfg none stmts ix = .error (.keyError t)
  | [], _, h => absurd h (by simp)
  | stmt :: rest, ix, h => by
    by_cases hmem : stmt.stmt_type ∈ cfg.stmt_type_map
    · have hrest : ∃ s ∈ rest, s.stmt_type ∉ cfg.stmt_type_map := by
        rcases h with ⟨s, hs, hst⟩
        rcases List.mem_cons.1 hs with rfl | hs2
        · exact absurd hmem hst
        · exact ⟨s, hs2, hst⟩
      rcases catFeaturesAux_unknown_type cfg htype rest (ix + 1) hrest with ⟨t, ht, heq⟩
      exact ⟨t, ht, by
        simp [catFeaturesAux, catFeatureRow, typeFeature, htype, hmem, heq]⟩
    · exact ⟨stmt.stmt_type, hmem, by
        simp [catFeaturesAux, catFeatureRow, typeFeature, htype, hmem]⟩

/-- C7: with `use_stmt_type` on, a statement list containing an item whose
kind is absent from the type vocabulary makes the statement-driven
builder fail with a `KeyError` on a vocabulary-missing kind (the spec's
ConfigurationError). -/
theorem stmts_to_matrix_unknown_type (cfg : CountsModelCfg) (stmts : List Stmt)
    (stmt : Stmt) (hmem : stmt ∈ stmts) (htype : cfg.use_stmt_type = true)
    (hmiss : stmt.stmt_type ∉ cfg.stmt_type_map) :
    ∃ t, t ∉ cfg.stmt_type_map ∧
      stmts_to_matrix cfg stmts none = .error (.keyError t) := by
  rcases catFeaturesAux_unknown_type cfg htype stmts 0 ⟨stmt, hmem, hmiss⟩
    with ⟨t, ht, heq⟩
  exact ⟨t, ht, by simp [stmts_to_matrix, check_extra_evidence, heq]⟩

/-- Witness for C7: a Phosphorylation statement against a vocabulary that
only knows Activation. -/
theorem stmts_to_matrix_unknown_type_witness :
    stmtPhos ∈ [stmtAct, stmtPhos] ∧
    (⟨["reach"], true, false, false, ["Activation"]⟩ : CountsModelCfg).use_stmt_type = true ∧
    stmtPhos.stmt_type ∉
      (⟨["reach"], true, false, false, ["Activation"]⟩ : CountsModelCfg).stmt_type_map ∧
    (∃ t, t ∉ (⟨["reach"], true, false, false, ["Activation"]⟩ : CountsModelCfg).stmt_type_map ∧
      stmts_to_matrix ⟨["reach"], true, false, false, ["Activation"]⟩
        [stmtAct, stmtPhos] none = .error (.keyError t)) :=
  ⟨by decide, rfl, by decide,
    stmts_to_matrix_unknown_type ⟨["reach"], true, false, false, ["Activation"]⟩
      [stmtAct, stmtPhos] stmtPhos (by decide) rfl (by decide)⟩

/-- C10: when every statement's kind is in the type vocabulary, the
EvidenceModel builder succeeds exactly on lists whose statements each
carry a single evidence — returning one one-hot type row per statement,
the collected sentence lengths contributing no column — and fails with
the single-evidence ValueError as soon as any statement's evidence count
differs from 1. -/
theorem evidence_stmts_to_matrix_spec (stmt_type_map : List String) :
    ∀ (stmts : List Stmt),
      (∀ s ∈ stmts, s.stmt_type ∈ stmt_type_map) →
      ((∀ s ∈ stmts, s.evidence.length = 1) →
        evidence_stmts_to_matrix stmt_type_map stmts =
          .ok (stmts.map (fun s =>
            typeOneHot stmt_type_map (stmt_type_map.indexOf s.stmt_type)))) ∧
      ((∃ s ∈ stmts, s.evidence.length ≠ 1) →
        evidence_stmts_to_matrix stmt_type_map stmts =
          .error (.valueError
            "EvidenceModel requires a list of statements with only a single evidence as input"))
  | [], _ => by
    constructor
    · intro _; rfl
    · intro hex; simp at hex
  | stmt :: rest, h => by
    have hhead : stmt.stmt_type ∈ stmt_type_map := h stmt (by simp)
    have hrest := evidence_stmts_to_matrix_spec stmt_type_map rest
      (fun s hs => h s (by simp [hs]))
    constructor
    · intro hall
      have h1 : stmt.evidence.length = 1 := hall stmt (by simp)
      have htail := hrest.1 (fun s hs => hall s (by simp [hs]))
      simp [evidence_stmts_to_matrix, evidenceFeatureRow, h1, hhead, htail]
    · intro hex
      by_cases h1 : stmt.evidence.length = 1
      · have hexr : ∃ s ∈ rest, s.evidence.length ≠ 1 := by
          rcases hex with ⟨s, hs, hne⟩
          rcases List.mem_cons.1 hs with rfl | hs2
          · exact absurd h1 hne
          · exact ⟨s, hs2, hne⟩
        have htail := hrest.2 hexr
        simp [evidence_stmts_to_matrix, evidenceFeatureRow, h1, hhead, htail]
      · simp [evidence_stmts_to_matrix, evidenceFeatureRow, h1]

/-- Witness for C10: both sample statements are in the sample vocabulary;
the single-evidence statement list succeeds while the list containing the
three-evidence statement fails. -/
theorem evidence_stmts_to_matrix_spec_witness :
    (∀ s ∈ [stmtAct, stmtPhos], s.stmt_type ∈ sampleTypeMap) ∧
    (((∀ s ∈ [stmtAct, stmtPhos], s.evidence.length = 1) →
      evidence_stmts_to_matrix sampleTypeMap [stmtAct, stmtPhos] =
        .ok ([stmtAct, stmtPhos].map (fun s =>
          typeOneHot sampleTypeMap (sampleTypeMap.indexOf s.stmt_type)))) ∧
    ((∃ s ∈ [stmtAct, stmtPhos], s.evidence.length ≠ 1) →
      evidence_stmts_to_matrix sampleTypeMap [stmtAct, stmtPhos] =
        .error (.valueError
          "EvidenceModel requires a list of statements with only a single evidence as input"))) :=
  ⟨by decide, evidence_stmts_to_matrix_spec sampleTypeMap _ (by decide)⟩

/-- With the member and PMID flags off, a statement's categorical row is
exactly its type feature, whatever evidence was resolved for it. -/
theorem catFeatureRow_no_counts (cfg : CountsModelCfg)
    (hm : cfg.use_num_members = false) (hp : cfg.use_num_pmids = false)
    (stmt : Stmt) (ev : List Evidence) :
    catFeatureRow cfg stmt ev = typeFeature cfg stmt.stmt_type := by
  cases htf : typeFeature cfg stmt.stmt_type <;>
    simp [catFeatureRow, htf, hm, hp]

/-- The two categorical loops agree (errors included) when the DataFrame
rows carry the statements' type names and the count flags are off. -/
theorem dfCatFeatures_eq_catFeaturesAux (cfg : CountsModelCfg)
    (hm : cfg.use_num_members = false) (hp : cfg.use_num_pmids = false) :
    ∀ (stmts : List Stmt) (rows : List DFRow) (ix : Nat),
      rows.length = stmts.length →
      (∀ p ∈ stmts.zip rows, (Prod.snd p).stmt_type = (Prod.fst p).stmt_type) →
      dfCatFeatures cfg rows = catFeaturesAux cfg none stmts ix
  | [], [], _, _, _ => rfl
  | [], r :: rs, _, hlen, _ => by simp at hlen
  | s :: ss, [], _, hlen, _ => by simp at hlen
  | s :: ss, r :: rs, ix, hlen, hrel => by
    have hhead : r.stmt_type = s.stmt_type := hrel (s, r) (by simp)
    have htail := dfCatFeatures_eq_catFeaturesAux cfg hm hp ss rs (ix + 1)
      (by simpa using hlen) (fun p hq => hrel p (by simp [hq]))
    cases htf : typeFeature cfg s.stmt_type <;>
      simp [dfCatFeatures, catFeaturesAux, catFeatureRow_no_counts cfg hm hp,
        hhead, htail, htf]

/-- The source-count loop of the table path, read from the `source_counts`
mapping column, reproduces the per-statement evidence tallies when the
mapping agrees with the statements' evidence on every vocabulary entry. -/
theorem dfSourceCountRows_eq_tallies (sl : List String) :
    ∀ (stmts : List Stmt) (rows : List DFRow),
      rows.length = stmts.length →
      (∀ p ∈ stmts.zip rows, ∀ src ∈ sl,
        (((Prod.snd p).source_counts).lookup src).getD 0 =
          ((Prod.fst p).evidence.map Evidence.source_api).count src) →
      dfSourceCountRows sl true rows =
        .ok (stmts.map (fun stmt => sourceCountRow sl stmt.evidence))
  | [], [], _, _ => rfl
  | [], r :: rs, hlen, _ => by simp at hlen
  | s :: ss, [], hlen, _ => by simp at hlen
  | s :: ss, r :: rs, hlen, hrel => by
    have hhead : sl.map (fun src => ((r.source_counts).lookup src).getD 0) =
        sl.map (fun src => (s.evidence.map Evidence.source_api).count src) :=
      List.map_congr_left (fun src hsrc => hrel (s, r) (by simp) src hsrc)
    have htail := dfSourceCountRows_eq_tallies sl ss rs (by simpa using hlen)
      (fun p hq => hrel p (by simp [hq]))
    simp [dfSourceCountRows, dfSourceCountRow, htail, sourceCountRow, hhead]

/-- C3: under a configuration both builders accept (member and PMID counts
off), a DataFrame that describes the same logical items as a statement
list — same kind names, and a `source_counts` mapping that agrees with
the statements' evidence tallies on every vocabulary entry — produces
exactly the matrix of the statement-driven builder: the same columns,
source counts first in `source_list` order, then the type one-hot
block. -/
theorem df_to_matrix_eq_stmts_to_matrix (cfg : CountsModelCfg)
    (stmts : List Stmt) (df : DataFrame)
    (hm : cfg.use_num_members = false) (hp : cfg.use_num_pmids = false)
    (hreq : required_cols.all (fun c => df.columns.contains c) = true)
    (hsc : df.columns.contains "source_counts" = true)
    (hlen : df.rows.length = stmts.length)
    (hrel : ∀ p ∈ stmts.zip df.rows,
      (Prod.snd p).stmt_type = (Prod.fst p).stmt_type ∧
      ∀ src ∈ cfg.source_list,
        (((Prod.snd p).source_counts).lookup src).getD 0 =
          ((Prod.fst p).evidence.map Evidence.source_api).count src) :
    df_to_matrix cfg df = stmts_to_matrix cfg stmts none := by
  have hcat := dfCatFeatures_eq_catFeaturesAux cfg hm hp stmts df.rows 0 hlen
    (fun p hq => (hrel p hq).1)
  have hcnt := dfSourceCountRows_eq_tallies cfg.source_list stmts df.rows hlen
    (fun p hq => (hrel p hq).2)
  have hsrc : sourceCountRows cfg stmts none =
      stmts.map (fun stmt => sourceCountRow cfg.source_list stmt.evidence) := by
    simp [sourceCountRows, get_stmt_evidence]
  have hsc2 : "source_counts" ∈ df.columns := by simpa using hsc
  have hreq2 : ∀ c ∈ required_cols, c ∈ df.columns := by
    simpa [List.all_eq_true] using hreq
  have hnex : ¬∃ x ∈ required_cols, x ∉ df.columns := by
    push_neg
    exact hreq2
  cases hcf : catFeaturesAux cfg none stmts 0 <;>
    simp [df_to_matrix, hm, hp, stmts_to_matrix, check_extra_evidence,
      hcat, hcnt, hsrc, hcf, hsc2, hnex]

/-- A sample DataFrame describing the same two items as
`[stmtPhos, stmtAct]`: all identifying columns plus a `source_counts`
mapping per row. -/
def sampleDF : DataFrame :=
  ⟨["agA_ns", "agA_id", "agA_name", "agB_ns", "agB_id", "agB_name",
    "stmt_type", "stmt_hash", "source_counts"],
   [⟨"Phosphorylation", [("reach", 2), ("medscan", 1)], []⟩,
    ⟨"Activation", [("sparser", 1)], []⟩]⟩

/-- Witness for C3: the sample DataFrame and the sample statement list
produce the same matrix under the shared configuration. -/
theorem df_to_matrix_eq_stmts_to_matrix_witness :
    (⟨["reach", "sparser"], true, false, false, sampleTypeMap⟩
        : CountsModelCfg).use_num_members = false ∧
    (⟨["reach", "sparser"], true, false, false, sampleTypeMap⟩
        : CountsModelCfg).use_num_pmids = false ∧
    required_cols.all (fun c => sampleDF.columns.contains c) = true ∧
    sampleDF.columns.contains "source_counts" = true ∧
    sampleDF.rows.length = ([stmtPhos, stmtAct] : List Stmt).length ∧
    (∀ p ∈ ([stmtPhos, stmtAct] : List Stmt).zip sampleDF.rows,
      (Prod.snd p).stmt_type = (Prod.fst p).stmt_type ∧
      ∀ src ∈ ["reach", "sparser"],
        (((Prod.snd p).source_counts).lookup src).getD 0 =
          ((Prod.fst p).evidence.map Evidence.source_api).count src) ∧
    df_to_matrix ⟨["reach", "sparser"], true, false, false, sampleTypeMap⟩ sampleDF =
      stmts_to_matrix ⟨["reach", "sparser"], true, false, false, sampleTypeMap⟩
        [stmtPhos, stmtAct] none :=
  ⟨rfl, rfl, by decide, by decide, by decide, by decide,
    df_to_matrix_eq_stmts_to_matrix _ [stmtPhos, stmtAct] sampleDF
      rfl rfl (by decide) (by decide) (by decide) (by decide)⟩

end IndraSklearn
